import Mathlib

/-!
Shallow embedding of the store-agent repository.

The embedding covers `store_functions.py` (in-memory inventory, shelf
layouts, storage requests, and the eleven tool functions) and the
transcript reducer of `chat_ui.py` (the direct event handling inside
`azure_store_chat`, `create_tool_bubble`, and the stream-level error
wrapper).

Modelling conventions:
* Python dicts are association lists `List (String × α)` in insertion
  order; assignment to an existing key replaces the value in place,
  assignment to a fresh key appends, mirroring CPython dict semantics.
* Tool functions in Python mutate module-level tables and return a JSON
  string.  Here each takes the whole `Store` and returns the new `Store`
  paired with the result object `JVal`; `json.dumps`/`json.loads` between
  two in-repository functions is the identity on these objects, so
  composition passes `JVal` directly.
* Randomness (`random.randint`, `random.random`) is passed in as an
  explicit parameter: the drawn integer for request ids, and the Boolean
  outcomes of the two probability comparisons for delivery checks.
* Machine integers are `Int` (Python ints are unbounded).
-/

/-- JSON-like result values returned by the tool functions. -/
inductive JVal where
  | str : String → JVal
  | int : Int → JVal
  | bool : Bool → JVal
  | obj : List (String × JVal) → JVal
  | arr : List JVal → JVal

/-- Lookup of a key in a JSON object; `none` on non-objects. -/
def JVal.getKey (k : String) : JVal → Option JVal
  | .obj fields => fields.lookup k
  | _ => none

/-- Membership test mirroring the Python idiom `"k" in output`. -/
def JVal.hasKey (k : String) (v : JVal) : Bool :=
  (v.getKey k).isSome

/-- Rendering used where the Python code string-interpolates a JSON
value; faithful for the string values the repository produces (string
escaping is not needed by any message the code builds). -/
def JVal.dump : JVal → String
  | .str s => "\"" ++ s ++ "\""
  | .int n => toString n
  | .bool b => if b then "true" else "false"
  | .obj fields => "\x7b" ++ String.intercalate ", " (dumpFields fields) ++ "\x7d"
  | .arr elems => "[" ++ String.intercalate ", " (dumpElems elems) ++ "]"
where
  /-- Rendering of the field list of an object. -/
  dumpFields : List (String × JVal) → List String
    | [] => []
    | (k, v) :: rest => ("\"" ++ k ++ "\": " ++ dump v) :: dumpFields rest
  /-- Rendering of the element list of an array. -/
  dumpElems : List JVal → List String
    | [] => []
    | v :: rest => dump v :: dumpElems rest

/-- String content of a field, used where the Python code interpolates
`output["k"]` into a message (the repository only does so on string
fields). -/
def JVal.getStr (k : String) (v : JVal) : String :=
  match v.getKey k with
  | some (.str s) => s
  | some w => w.dump
  | none => ""

/-- Association-list lookup: Python `d.get(k)` / `d[k]`. -/
def lookupA {α : Type} (k : String) : List (String × α) → Option α
  | [] => none
  | (k1, v) :: rest => if k1 = k then some v else lookupA k rest

/-- Association-list store: Python `d[k] = v` (replace in place when the
key exists, append otherwise). -/
def insertA {α : Type} (k : String) (v : α) : List (String × α) → List (String × α)
  | [] => [(k, v)]
  | (k1, v1) :: rest => if k1 = k then (k, v) :: rest else (k1, v1) :: insertA k v rest

/-- Association-list deletion: Python `del d[k]`. -/
def eraseA {α : Type} (k : String) : List (String × α) → List (String × α)
  | [] => []
  | (k1, v1) :: rest => if k1 = k then rest else (k1, v1) :: eraseA k rest

/-- Key list of an association list: Python `list(d.keys())`. -/
def keysA {α : Type} : List (String × α) → List String
  | [] => []
  | (k, _) :: rest => k :: keysA rest

/-- Membership test: Python `k in d`. -/
def memA {α : Type} (k : String) (l : List (String × α)) : Bool :=
  (lookupA k l).isSome

/-- Inventory record (one value of the `inventory` dict of
`store_functions.py`). -/
structure Item where
  name : String
  stock : Int
  category : String
  location_id : Option String
  position : Option Int
  deriving DecidableEq, Repr

/-- Delivery status of a storage request. -/
inductive ReqStatus where
  | Pending
  | InTransit
  | Delivered
  deriving DecidableEq, Repr

/-- String form used in the Python dicts. -/
def ReqStatus.toStr : ReqStatus → String
  | .Pending => "Pending"
  | .InTransit => "In Transit"
  | .Delivered => "Delivered"

/-- One value of the `storage_requests` dict. -/
structure StorageRequest where
  item_id : String
  quantity : Int
  target_location : String
  status : ReqStatus
  deriving DecidableEq, Repr

/-- JSON rendering of a request record, as embedded in the `details`
field of `check_delivery_status` results. -/
def StorageRequest.toJVal (r : StorageRequest) : JVal :=
  .obj [("item_id", .str r.item_id), ("quantity", .int r.quantity),
        ("target_location", .str r.target_location), ("status", .str r.status.toStr)]

/-- The three module-level mutable tables of `store_functions.py`. -/
structure Store where
  inventory : List (String × Item)
  shelf_layouts : List (String × List (List (Option String)))
  storage_requests : List (String × StorageRequest)
  deriving DecidableEq, Repr

/-- Fixture `inventory` table. -/
def initInventory : List (String × Item) :=
  [("SKU001", ⟨"Contoso Cereal", 15, "Breakfast", some "A1", some 1⟩),
   ("SKU002", ⟨"Northwind Oatmeal", 12, "Breakfast", some "A1", some 2⟩),
   ("SKU003", ⟨"Adventure Granola", 8, "Breakfast", some "A2", some 0⟩),
   ("SKU004", ⟨"Fabrikam Pancake Mix", 10, "Breakfast", some "A2", some 1⟩),
   ("SKU010", ⟨"Fabrikam Milk (1L)", 20, "Dairy", some "B1", some 0⟩),
   ("SKU011", ⟨"Contoso Yogurt", 18, "Dairy", some "B1", some 1⟩),
   ("SKU012", ⟨"Adventure Cheese", 15, "Dairy", some "B2", some 0⟩),
   ("SKU013", ⟨"Northwind Butter", 12, "Dairy", some "B2", some 1⟩),
   ("SKU020", ⟨"Northwind Cola (Can)", 48, "Drinks", some "C1", some 0⟩),
   ("SKU021", ⟨"Adventure Water (1L)", 36, "Drinks", some "C1", some 1⟩),
   ("SKU022", ⟨"Fabrikam Juice (2L)", 15, "Drinks", some "C2", some 0⟩),
   ("SKU023", ⟨"Contoso Energy Drink", 24, "Drinks", some "C2", some 1⟩),
   ("SKU030", ⟨"Adatum Apples (Bag)", 20, "Produce", some "P1", some 0⟩),
   ("SKU031", ⟨"Fabrikam Bananas", 25, "Produce", some "P1", some 1⟩),
   ("SKU032", ⟨"Contoso Oranges (Net)", 15, "Produce", some "P2", some 0⟩),
   ("SKU033", ⟨"Northwind Carrots", 18, "Produce", some "P2", some 1⟩),
   ("SKU040", ⟨"Woodgrove Cleaning Spray", 14, "Household", some "H1", some 0⟩),
   ("SKU041", ⟨"Adventure Paper Towels", 22, "Household", some "H1", some 1⟩),
   ("SKU042", ⟨"Contoso Dish Soap", 16, "Household", some "H2", some 0⟩),
   ("SKU043", ⟨"Fabrikam Laundry Det.", 10, "Household", some "H2", some 1⟩)]

/-- Fixture `shelf_layouts` table. -/
def initShelfLayouts : List (String × List (List (Option String))) :=
  [("A1", [[some "SKU001", some "SKU001", some "SKU002"],
           [some "SKU001", some "SKU002", some "SKU002"],
           [some "SKU001", some "SKU002", none],
           [none, none, none]]),
   ("A2", [[some "SKU003", some "SKU003", some "SKU004"],
           [some "SKU003", some "SKU004", some "SKU004"],
           [some "SKU004", none, none],
           [none, none, none]]),
   ("B1", [[some "SKU010", some "SKU010", some "SKU011"],
           [some "SKU010", some "SKU011", some "SKU011"],
           [some "SKU010", some "SKU011", none],
           [some "SKU010", none, none]]),
   ("B2", [[some "SKU012", some "SKU012", some "SKU013"],
           [some "SKU012", some "SKU013", some "SKU013"],
           [some "SKU012", some "SKU013", none],
           [none, none, none]]),
   ("C1", [[some "SKU020", some "SKU020", some "SKU021"],
           [some "SKU020", some "SKU021", some "SKU021"],
           [some "SKU020", some "SKU021", none],
           [some "SKU020", some "SKU021", none]]),
   ("C2", [[some "SKU022", some "SKU022", some "SKU023"],
           [some "SKU022", some "SKU023", some "SKU023"],
           [some "SKU022", some "SKU023", none],
           [none, none, none]]),
   ("C3", [[some "SKU022", some "SKU022", some "SKU023"],
           [some "SKU022", some "SKU023", some "SKU023"],
           [some "SKU022", some "SKU023", none],
           [none, none, none]]),
   ("P1", [[some "SKU030", some "SKU030", some "SKU031"],
           [some "SKU030", some "SKU031", some "SKU031"],
           [some "SKU030", some "SKU031", none],
           [none, none, none]]),
   ("P2", [[some "SKU032", some "SKU032", some "SKU033"],
           [some "SKU032", some "SKU033", some "SKU033"],
           [some "SKU032", some "SKU033", none],
           [none, none, none]]),
   ("H1", [[some "SKU040", some "SKU040", some "SKU041"],
           [some "SKU040", some "SKU041", some "SKU041"],
           [some "SKU040", some "SKU041", none],
           [some "SKU040", none, none]]),
   ("H2", [[some "SKU042", some "SKU042", some "SKU043"],
           [some "SKU042", some "SKU043", some "SKU043"],
           [some "SKU042", some "SKU043", none],
           [some "SKU042", none, none]])]

/-- Initial process state: fixture inventory and shelves, no storage
requests. -/
def initStore : Store :=
  { inventory := initInventory, shelf_layouts := initShelfLayouts, storage_requests := [] }

/-- Shorthand for the `{"error": msg}` result objects. -/
def errObj (msg : String) : JVal :=
  .obj [("error", .str msg)]

/-- Tool function `check_item_stock` of `store_functions.py`. -/
def check_item_stock (s : Store) (item_id : String) : Store × JVal :=
  match lookupA item_id s.inventory with
  | some item =>
      (s, .obj [("item_id", .str item_id), ("name", .str item.name), ("stock", .int item.stock)])
  | none => (s, errObj ("Item ID " ++ item_id ++ " not found."))

/-- Tool function `find_item_location`; the Python truthiness test
`if item and item.get("location_id")` treats a missing and an empty
location the same way. -/
def find_item_location (s : Store) (item_id : String) : Store × JVal :=
  match lookupA item_id s.inventory with
  | some item =>
      match item.location_id with
      | some loc =>
          if loc.isEmpty then
            (s, errObj ("Location for Item ID " ++ item_id ++ " not defined."))
          else
            (s, .obj [("item_id", .str item_id), ("name", .str item.name),
                      ("location_id", .str loc),
                      ("position", match item.position with
                                   | some p => .int p
                                   | none => .str "N/A")])
      | none => (s, errObj ("Location for Item ID " ++ item_id ++ " not defined."))
  | none => (s, errObj ("Item ID " ++ item_id ++ " not found."))

/-- Cell padding of `get_shelf_layout`: `name[:20].ljust(20)`. -/
def padCell (s : String) : String :=
  let t := s.take 20
  t ++ String.mk (List.replicate (20 - t.length) ' ')

/-- Rendering of one slot of a shelf row. -/
def renderCell (inv : List (String × Item)) (cell : Option String) : String :=
  match cell with
  | some item_id =>
      if item_id.isEmpty then padCell "Empty"
      else
        match lookupA item_id inv with
        | some item => padCell item.name
        | none => padCell item_id
  | none => padCell "Empty"

/-- Rendering of the shelf rows, with the running row index of the
Python `enumerate`. -/
def renderRows (inv : List (String × Item)) : List (List (Option String)) → Nat → String
  | [], _ => ""
  | row :: rest, i =>
      "| Shelf " ++ toString (i + 1) ++ " | " ++
      String.intercalate " | " (row.map (renderCell inv)) ++ " |\n" ++
      renderRows inv rest (i + 1)

/-- Tool function `get_shelf_layout`; the read of the `inventory` table
is for display names only. -/
def get_shelf_layout (s : Store) (shelf_id : String) : Store × JVal :=
  match lookupA shelf_id s.shelf_layouts with
  | some layout =>
      if layout.isEmpty then (s, errObj ("Shelf ID " ++ shelf_id ++ " not found."))
      else
        let representation :=
          "### Layout for Shelf " ++ shelf_id ++ "\n\n" ++
          "| Position | 1 | 2 | 3 |\n" ++
          "|----------|---|---|---|\n" ++
          renderRows s.inventory layout 0
        (s, .obj [("shelf_id", .str shelf_id), ("layout_visual", .str representation.trim)])
  | none => (s, errObj ("Shelf ID " ++ shelf_id ++ " not found."))

/-- Tool function `request_item_from_storage`; `rnd` is the integer the
Python code draws with `random.randint(1000, 9999)`. -/
def request_item_from_storage (s : Store) (item_id : String) (quantity : Int)
    (target_location_id : String) (rnd : Nat) : Store × JVal :=
  if !memA item_id s.inventory then
    (s, errObj ("Item ID " ++ item_id ++ " not found in inventory system."))
  else if !memA target_location_id s.shelf_layouts then
    (s, errObj ("Target Shelf ID " ++ target_location_id ++ " does not exist."))
  else if quantity ≤ 0 then
    (s, errObj "Quantity must be positive.")
  else
    let request_id := "REQ" ++ toString rnd
    let req : StorageRequest := ⟨item_id, quantity, target_location_id, .Pending⟩
    let nm := match lookupA item_id s.inventory with
              | some item => item.name
              | none => ""
    let msg := "Request " ++ request_id ++ " created for " ++ toString quantity ++ " of " ++
               nm ++ " to shelf " ++ target_location_id ++ "."
    ({ s with storage_requests := insertA request_id req s.storage_requests },
     .obj [("request_id", .str request_id), ("status", .str "Pending"), ("message", .str msg)])

/-- Tool function `check_delivery_status`; `b1` and `b2` are the
outcomes of the two comparisons `random.random() > 0.7` and
`random.random() > 0.5` (each drawn only when its branch is reached). -/
def check_delivery_status (s : Store) (request_id : String) (b1 b2 : Bool) : Store × JVal :=
  match lookupA request_id s.storage_requests with
  | some request =>
      let request2 :=
        if request.status = .Pending ∧ b1 then { request with status := .InTransit }
        else if request.status = .InTransit ∧ b2 then { request with status := .Delivered }
        else request
      let s2 := { s with storage_requests := insertA request_id request2 s.storage_requests }
      (s2, .obj [("request_id", .str request_id), ("status", .str request2.status.toStr),
                 ("details", request2.toJVal)])
  | none => (s, errObj ("Request ID " ++ request_id ++ " not found."))

/-- Entry of the `low_stock_items` result list. -/
def restockEntry (item_id : String) (item : Item) : JVal :=
  .obj [("item_id", .str item_id), ("name", .str item.name),
        ("current_stock", .int item.stock),
        ("location_id", match item.location_id with
                        | some l => .str l
                        | none => .str "N/A")]

/-- Filter loop of `get_items_needing_restock`, kept in dict insertion
order. -/
def lowStockList (category : Option String) (min_stock_level : Int) :
    List (String × Item) → List JVal
  | [] => []
  | (item_id, item) :: rest =>
      if item.stock < min_stock_level ∧
         (category = none ∨ category = some item.category) then
        restockEntry item_id item :: lowStockList category min_stock_level rest
      else lowStockList category min_stock_level rest

/-- Tool function `get_items_needing_restock`. -/
def get_items_needing_restock (s : Store) (category : Option String) (min_stock_level : Int) :
    Store × JVal :=
  let low := lowStockList category min_stock_level s.inventory
  (s, .obj [("low_stock_items", .arr low), ("count", .int (low.length : Int))])

/-- Tool function `update_inventory_count`: add the signed delta, clamp
at zero. -/
def update_inventory_count (s : Store) (item_id : String) (quantity_change : Int)
    (reason : String) : Store × JVal :=
  match lookupA item_id s.inventory with
  | some item =>
      let original_stock := item.stock
      let new_stock := if original_stock + quantity_change < 0 then 0
                       else original_stock + quantity_change
      let item2 := { item with stock := new_stock }
      ({ s with inventory := insertA item_id item2 s.inventory },
       .obj [("item_id", .str item_id), ("name", .str item.name),
             ("previous_stock", .int original_stock), ("new_stock", .int new_stock),
             ("change", .int quantity_change), ("reason", .str reason)])
  | none => (s, errObj ("Item ID " ++ item_id ++ " not found."))

/-- Tool function `mark_item_restocked`: five validations, then the slot
write followed by `update_inventory_count(+quantity)`. -/
def mark_item_restocked (s : Store) (item_id shelf_id : String)
    (shelf_index position_index quantity : Int) : Store × JVal :=
  if !memA item_id s.inventory then
    (s, errObj ("Item ID " ++ item_id ++ " not found."))
  else if !memA shelf_id s.shelf_layouts then
    (s, errObj ("Shelf ID " ++ shelf_id ++ " not found."))
  else
    let layout := (lookupA shelf_id s.shelf_layouts).getD []
    if ¬(0 ≤ shelf_index ∧ shelf_index < (layout.length : Int)) then
      (s, errObj ("Invalid shelf index " ++ toString shelf_index ++ " for Shelf " ++ shelf_id ++ "."))
    else
      let row := layout.getD shelf_index.toNat []
      if ¬(0 ≤ position_index ∧ position_index < (row.length : Int)) then
        (s, errObj ("Invalid position index " ++ toString position_index ++ " for Shelf " ++
                    shelf_id ++ ", Shelf " ++ toString (shelf_index + 1) ++ "."))
      else if quantity ≤ 0 then
        (s, errObj "Quantity must be positive.")
      else
        let layout2 := layout.set shelf_index.toNat (row.set position_index.toNat (some item_id))
        let s1 := { s with shelf_layouts := insertA shelf_id layout2 s.shelf_layouts }
        let reason := "Restocked on " ++ shelf_id ++ "-S" ++ toString (shelf_index + 1) ++
                      "-P" ++ toString (position_index + 1)
        let upd := update_inventory_count s1 item_id quantity reason
        if upd.2.hasKey "error" then
          (upd.1, .obj [("error", .str ("Failed to update inventory: " ++ upd.2.getStr "error")),
                        ("layout_updated", .bool true)])
        else
          let nm := match lookupA item_id upd.1.inventory with
                    | some item => item.name
                    | none => ""
          (upd.1, .obj [("message", .str ("Successfully restocked " ++ toString quantity ++
                         " of " ++ nm ++ " (" ++ item_id ++ ") at " ++ shelf_id ++ "-S" ++
                         toString (shelf_index + 1) ++ "-P" ++ toString (position_index + 1) ++ ".")),
                        ("inventory_update", upd.2)])

/-- Tool function `log_damaged_item`; the `notes` default mirrors the
Python truthiness test `notes if notes else`. -/
def log_damaged_item (s : Store) (item_id : String) (quantity : Int)
    (notes : Option String) : Store × JVal :=
  if quantity ≤ 0 then (s, errObj "Quantity must be positive.")
  else
    let noteStr := match notes with
                   | some n => if n.isEmpty then "No details" else n
                   | none => "No details"
    let upd := update_inventory_count s item_id (-quantity) ("Damaged (" ++ noteStr ++ ")")
    if upd.2.hasKey "error" then
      (upd.1, errObj ("Failed to log damage: " ++ upd.2.getStr "error"))
    else
      let nm := match lookupA item_id upd.1.inventory with
                | some item => item.name
                | none => ""
      (upd.1, .obj [("message", .str ("Successfully logged " ++ toString quantity ++
                     " damaged units of " ++ nm ++ " (" ++ item_id ++ ").")),
                    ("inventory_update", upd.2)])

/-- Tool function `get_store_layout_overview`. -/
def get_store_layout_overview (s : Store) : Store × JVal :=
  let shelf_ids := keysA s.shelf_layouts
  (s, .obj [("shelf_ids", .arr (shelf_ids.map JVal.str)), ("count", .int (shelf_ids.length : Int))])

/-- Slot-resolution loop of `identify_and_restock_item_from_image`:
per row, `shelf.index(item_id)` wins and stops the loop; on its
`ValueError` the first empty slot is remembered once (`shelf_idx == -1`
guard) and the loop continues.  The accumulator stands for the
`(shelf_idx, pos_idx)` pair, `none` for `(-1, -1)`. -/
def scanRows (item_id : String) : List (List (Option String)) → Nat → Option (Nat × Nat) →
    Option (Nat × Nat)
  | [], _, acc => acc
  | row :: rest, r, acc =>
      match row.findIdx? (fun c => c == some item_id) with
      | some p => some (r, p)
      | none =>
          match acc with
          | some _ => scanRows item_id rest (r + 1) acc
          | none =>
              match row.findIdx? (fun c => c == (none : Option String)) with
              | some p => scanRows item_id rest (r + 1) (some (r, p))
              | none => scanRows item_id rest (r + 1) none

/-- Tool function `identify_and_restock_item_from_image`: the simulated
vision step reads `image_data` as the item id, resolves the shelf via
`find_item_location`, resolves the slot via the row scan, and delegates
to `mark_item_restocked`. -/
def identify_and_restock_item_from_image (s : Store) (image_data : String) (quantity : Int) :
    Store × JVal :=
  let item_id := image_data
  if item_id.isEmpty then
    (s, errObj "Could not identify item from image data (simulation).")
  else
    let location_data := (find_item_location s item_id).2
    if location_data.hasKey "error" then
      (s, errObj ("Could not find location for identified item " ++ item_id ++ ": " ++
                  location_data.getStr "error"))
    else
      let shelf_id := location_data.getStr "location_id"
      let slot :=
        match lookupA shelf_id s.shelf_layouts with
        | some layout => scanRows item_id layout 0 none
        | none => none
      match slot with
      | none =>
          (s, errObj ("Could not determine specific shelf/position for item " ++ item_id ++
                      " on shelf " ++ shelf_id ++ ". Layout might need update."))
      | some (shelf_idx, pos_idx) =>
          let res := mark_item_restocked s item_id shelf_id (shelf_idx : Int) (pos_idx : Int) quantity
          if res.2.hasKey "error" then
            (res.1, errObj ("Failed to restock after identification: " ++ res.2.getStr "error"))
          else
            (res.1, .obj [("message", .str ("Simulated vision identification and restocking complete for " ++
                           item_id ++ ".")),
                          ("restock_details", res.2)])

/-- Metadata dict attached to a tool bubble by `create_tool_bubble` of
`chat_ui.py` (keys `title`, `id`, `status`). -/
structure BubbleMeta where
  title : String
  id : String
  status : String
  deriving DecidableEq, Repr

/-- One Gradio `ChatMessage`: role, content, optional metadata.  A
`none` metadata is the Python `None`/empty dict (both falsy). -/
structure ChatMessage where
  role : String
  content : String
  metadata : Option BubbleMeta
  deriving DecidableEq, Repr

/-- Table `tool_titles` of `azure_store_chat`. -/
def tool_titles : List (String × String) :=
  [("check_item_stock", "🔍 Checking Stock"),
   ("find_item_location", "📍 Finding Location"),
   ("get_shelf_layout", "🗄️ Viewing Shelf Layout"),
   ("request_item_from_storage", "📦 Requesting from Storage"),
   ("check_delivery_status", "🚚 Checking Delivery"),
   ("get_items_needing_restock", "⚠️ Finding Low Stock"),
   ("update_inventory_count", "🔢 Updating Inventory"),
   ("mark_item_restocked", "✅ Marking Restocked"),
   ("log_damaged_item", "🚫 Logging Damage"),
   ("get_store_layout_overview", "🏪 Viewing Store Layout"),
   ("identify_and_restock_item_from_image", "📷 \x27Scanning\x27 Item (Simulated)"),
   ("bing_grounding", "🔎 Searching Web Sources")]

/-- Table `tool_icons_status` of `azure_store_chat`. -/
def tool_icons_status : List (String × String) :=
  [("pending", "⏳"), ("done", "✅"), ("error", "❌")]

/-- Stable bubble key: `f"tool-{call_id}" if call_id else "tool-noid"`
(a `None` or empty id is falsy). -/
def bubbleIdOf (call_id : Option String) : String :=
  match call_id with
  | some c => if c.isEmpty then "tool-noid" else "tool-" ++ c
  | none => "tool-noid"

/-- Test of the back-scan `msg.metadata and msg.metadata.get("id") ==
bubble_id`. -/
def bubbleMatch (bubble_id : String) (m : ChatMessage) : Bool :=
  match m.metadata with
  | some md => md.id == bubble_id
  | none => false

/-- In-place update of the first element satisfying `p`. -/
def updateFirst {α : Type} (p : α → Bool) (f : α → α) : List α → List α
  | [] => []
  | x :: rest => if p x then f x :: rest else x :: updateFirst p f rest

/-- Function `create_tool_bubble` of `azure_store_chat`: upsert by
bubble key.  The existing-bubble scan walks `reversed(conversation)`,
so the update hits the last matching entry; a fresh bubble is appended. -/
def create_tool_bubble (conv : List ChatMessage) (tool_name : Option String)
    (content : String) (call_id : Option String) (status : String) : List ChatMessage :=
  match tool_name with
  | none => conv
  | some name =>
      let title_prefix := match lookupA name tool_titles with
                          | some t => t
                          | none => "屏ｸ" ++ name
      let status_icon := match lookupA status tool_icons_status with
                         | some i => i
                         | none => ""
      let title := status_icon ++ " " ++ title_prefix
      let bubble_id := bubbleIdOf call_id
      if conv.any (bubbleMatch bubble_id) then
        (updateFirst (bubbleMatch bubble_id)
          (fun m => { m with content := content,
                             metadata := some ⟨title, bubble_id, status⟩ })
          conv.reverse).reverse
      else
        conv ++ [⟨"assistant", content, some ⟨title, bubble_id, status⟩⟩]

/-- Value of the `active_tool_calls` tracking dict. -/
structure ToolCallInfo where
  name : String
  arguments : String
  status : String
  deriving DecidableEq, Repr

/-- State folded over the event stream: the transcript plus the active
tool-call table. -/
structure ReducerState where
  conversation : List ChatMessage
  active_tool_calls : List (String × ToolCallInfo)
  deriving DecidableEq, Repr

/-- One entry of a `thread.run.step.delta` tool-call list, with exactly
the fields the handler reads. -/
structure DeltaCall where
  id : Option String
  type : String
  hasFunc : Bool
  funcName : Option String
  funcArguments : Option String
  bingRequestUrl : String

/-- One entry of a `run_step` tool-call list.  `output` is present iff
the Python guard `hasattr(tcall, 'function') and tcall.function.output`
is truthy; it carries the raw output string and its JSON parse
(`none` models a `json.JSONDecodeError`). -/
structure DoneCall where
  id : Option String
  type : String
  output : Option (String × Option JVal)

/-- Tagged union of the stream events the direct handler dispatches on;
`otherEvent` covers every event kind that matches no branch. -/
inductive Event where
  | stepDelta (dtype : String) (calls : List DeltaCall)
  | runStep (stype : String) (status : String) (lastError : Option String) (calls : List DoneCall)
  | messageDelta (chunks : List String)
  | threadRun (status : String)
  | otherEvent

/-- Handling of one tool-call entry of a `thread.run.step.delta` event
(`azure_store_chat`, function and bing branches). -/
def processDeltaCall (st : ReducerState) (tcall : DeltaCall) : ReducerState :=
  if tcall.type == "function" && tcall.hasFunc then
    match tcall.funcName, tcall.id with
    | some fn, some cid =>
        if fn.isEmpty || cid.isEmpty then st
        else
          let st1 :=
            if memA cid st.active_tool_calls then st
            else
              { conversation := create_tool_bubble st.conversation (some fn) "Running..." (some cid) "pending",
                active_tool_calls := insertA cid ⟨fn, "", "pending"⟩ st.active_tool_calls }
          match tcall.funcArguments with
          | some args =>
              match lookupA cid st1.active_tool_calls with
              | some info =>
                  { st1 with active_tool_calls :=
                      insertA cid { info with arguments := info.arguments ++ args } st1.active_tool_calls }
              | none => st1
          | none => st1
    | _, _ => st
  else if tcall.type == "bing_grounding" then
    let parts := tcall.bingRequestUrl.splitOn "?q="
    if parts.length > 1 then
      let conv2 := create_tool_bubble st.conversation (some "bing_grounding")
        ("Searching for \x27" ++ parts.getLastD "" ++ "\x27...") tcall.id "pending"
      { st with conversation := conv2 }
    else st
  else st

/-- Display-message selection of the `run_step`-completed branch. -/
def selectDoneMessage (func_name output_str : String) (parsed : Option JVal) : String :=
  match parsed with
  | none => "Completed. Output (non-JSON): " ++ output_str.take 100 ++
            (if output_str.length > 100 then "..." else "")
  | some output =>
      if func_name == "get_shelf_layout" && output.hasKey "layout_visual" then
        output.getStr "layout_visual"
      else if output.hasKey "message" then output.getStr "message"
      else if output.hasKey "error" then "Error: " ++ output.getStr "error"
      else "Completed. Output: " ++ output_str.take 100 ++
           (if output_str.length > 100 then "..." else "")

/-- Cleanup `if call_id in active_tool_calls: del active_tool_calls[call_id]`. -/
def cleanupCall (id : Option String) (acts : List (String × ToolCallInfo)) :
    List (String × ToolCallInfo) :=
  match id with
  | some cid => if memA cid acts then eraseA cid acts else acts
  | none => acts

/-- Handling of one tool-call entry of a `run_step` event
(`azure_store_chat`, completed and failed branches). -/
def processDoneCall (status : String) (lastError : Option String) (st : ReducerState)
    (tcall : DoneCall) : ReducerState :=
  let func_name :=
    match tcall.id with
    | some cid =>
        match lookupA cid st.active_tool_calls with
        | some info => if info.name.isEmpty then "unknown_function" else info.name
        | none => "unknown_function"
    | none => "unknown_function"
  if status == "completed" then
    if tcall.type == "function" then
      match tcall.output with
      | some (output_str, parsed) =>
          { conversation := create_tool_bubble st.conversation (some func_name)
              (selectDoneMessage func_name output_str parsed) tcall.id "done",
            active_tool_calls := cleanupCall tcall.id st.active_tool_calls }
      | none => st
    else st
  else if status == "failed" then
    let error_message := "Tool call failed: " ++ func_name ++
      (match lastError with
       | some m => " - " ++ m
       | none => "")
    { conversation := create_tool_bubble st.conversation (some func_name)
        error_message tcall.id "error",
      active_tool_calls := cleanupCall tcall.id st.active_tool_calls }
  else st

/-- Handling of a `thread.message.delta` event: append the concatenated
text to the last plain assistant entry, or open a new one when the last
entry is absent, non-assistant, or a tool bubble. -/
def applyMessageDelta (conv : List ChatMessage) (content : String) : List ChatMessage :=
  if content.isEmpty then conv
  else
    match conv.getLast? with
    | none => conv ++ [⟨"assistant", content, none⟩]
    | some last =>
        if last.role != "assistant" || last.metadata.isSome then
          conv ++ [⟨"assistant", content, none⟩]
        else
          conv.dropLast ++ [⟨last.role, last.content ++ content, last.metadata⟩]

/-- One step of the direct event loop of `azure_store_chat`. -/
def processEvent (st : ReducerState) (ev : Event) : ReducerState :=
  match ev with
  | .stepDelta dtype calls =>
      if dtype == "tool_calls" then calls.foldl processDeltaCall st else st
  | .runStep stype status lastError calls =>
      if stype == "tool_calls" && !calls.isEmpty then
        calls.foldl (processDoneCall status lastError) st
      else st
  | .messageDelta chunks =>
      { st with conversation := applyMessageDelta st.conversation (String.join chunks) }
  | .threadRun _ => st
  | .otherEvent => st

/-- Fold of the whole event stream. -/
def processEvents (st : ReducerState) (evs : List Event) : ReducerState :=
  evs.foldl processEvent st

/-- Outcome of iterating the stream: the events delivered before it
ended, and the exception message when iteration raised instead of
finishing. -/
structure StreamRun where
  events : List Event
  streamError : Option String

/-- Turn wrapper of `azure_store_chat`: fold the delivered events; on a
stream-level exception append the single error entry built in the
`except` handler, preserving the transcript built so far. -/
def runTurn (st : ReducerState) (sr : StreamRun) : ReducerState :=
  let st1 := processEvents st sr.events
  match sr.streamError with
  | none => st1
  | some e =>
      { st1 with conversation := st1.conversation ++
          [⟨"assistant", "An error occurred while processing your request: " ++ e, none⟩] }

/-- Status carried by a bubble entry (`none` for plain messages). -/
def bubbleStatusOf (m : ChatMessage) : Option String :=
  m.metadata.map (fun md => md.status)

/-- Progress rank of a delivery status along the order
Pending → In Transit → Delivered. -/
def ReqStatus.rank : ReqStatus → Nat
  | .Pending => 0
  | .InTransit => 1
  | .Delivered => 2

/-- The single Python statement
`shelf_layouts[shelf_id][shelf_index][position_index] = item_id`,
isolated so the slot-write-then-count-update decomposition of
`mark_item_restocked` can be stated. -/
def writeSlot (s : Store) (shelf_id : String) (si pi2 : Nat) (item_id : String) : Store :=
  match lookupA shelf_id s.shelf_layouts with
  | some layout =>
      let row := layout.getD si []
      { s with shelf_layouts :=
          insertA shelf_id (layout.set si (row.set pi2 (some item_id))) s.shelf_layouts }
  | none => s

/-- Modelled from the spec wording for the slot-resolution rule of
`identify_and_restock_item_from_image`: the first slot in row-major
order satisfying the predicate. -/
def firstSlot (p : Option String → Bool) : List (List (Option String)) → Option (Nat × Nat)
  | [] => none
  | row :: rest =>
      match row.findIdx? p with
      | some c => some (0, c)
      | none => (firstSlot p rest).map (fun rc => (rc.1 + 1, rc.2))

/-- Modelled from the spec wording: the first slot whose content equals
the item identifier, or, when no row contains the item, the first empty
slot. -/
def resolvedSlot (item_id : String) (layout : List (List (Option String))) :
    Option (Nat × Nat) :=
  match firstSlot (fun c => c == some item_id) layout with
  | some rc => some rc
  | none => firstSlot (fun c => c == (none : Option String)) layout

/-! Association-list lemmas shared by the claim proofs. -/

theorem lookupA_insertA_self {α : Type} (k : String) (v : α) (l : List (String × α)) :
    lookupA k (insertA k v l) = some v := by
  induction l with
  | nil => simp [lookupA, insertA]
  | cons hd tl ih =>
      obtain ⟨k1, v1⟩ := hd
      by_cases h : k1 = k
      · simp [insertA, h, lookupA]
      · simp [insertA, h, lookupA, ih]

theorem lookupA_insertA_ne {α : Type} {k k1 : String} (v : α) (l : List (String × α))
    (h : k1 ≠ k) : lookupA k1 (insertA k v l) = lookupA k1 l := by
  induction l with
  | nil =>
      have hne : ¬(k = k1) := fun hh => h hh.symm
      simp [lookupA, insertA, hne]
  | cons hd tl ih =>
      obtain ⟨k2, v2⟩ := hd
      by_cases h2 : k2 = k
      · subst h2
        have hne : ¬(k2 = k1) := fun hh => h hh.symm
        simp [insertA, lookupA, hne]
      · simp [insertA, h2, lookupA, ih]

theorem memA_insertA {α : Type} (k k1 : String) (v : α) (l : List (String × α))
    (hm : memA k1 l = true) : memA k1 (insertA k v l) = true := by
  by_cases h : k1 = k
  · subst h; simp [memA, lookupA_insertA_self]
  · simpa [memA, lookupA_insertA_ne v l h] using hm

theorem insertA_of_not_mem {α : Type} {k : String} (v : α) {l : List (String × α)}
    (h : memA k l = false) : insertA k v l = l ++ [(k, v)] := by
  induction l with
  | nil => rfl
  | cons hd tl ih =>
      obtain ⟨k1, v1⟩ := hd
      by_cases h1 : k1 = k
      · subst h1; simp [memA, lookupA] at h
      · have htl : memA k tl = false := by simpa [memA, lookupA, h1] using h
        simp [insertA, h1, ih htl]

/-! Lemmas on the in-place list update used by the bubble upsert. -/

theorem updateFirst_length {α : Type} (p : α → Bool) (f : α → α) (l : List α) :
    (updateFirst p f l).length = l.length := by
  induction l with
  | nil => rfl
  | cons x rest ih =>
      by_cases h : p x
      · simp [updateFirst, h]
      · simp [updateFirst, h, ih]

theorem countP_updateFirst {α : Type} (p : α → Bool) (f : α → α)
    (hf : ∀ x, p x = true → p (f x) = true) (l : List α) :
    (updateFirst p f l).countP p = l.countP p := by
  induction l with
  | nil => rfl
  | cons x rest ih =>
      by_cases h : p x
      · simp [updateFirst, h, List.countP_cons, hf x h]
      · simp [updateFirst, h, List.countP_cons, ih]

theorem updateFirst_unique_prop {α : Type} (p : α → Bool) (f : α → α) (Q : α → Prop)
    (hf : ∀ x, p x = true → Q (f x)) (l : List α) (hl : l.countP p ≤ 1) :
    ∀ m ∈ updateFirst p f l, p m = true → Q m := by
  induction l with
  | nil => intro m hm; simp [updateFirst] at hm
  | cons x rest ih =>
      intro m hm hp
      by_cases h : p x
      · have hceq : (x :: rest).countP p = rest.countP p + 1 :=
          List.countP_cons_of_pos p rest h
        simp only [updateFirst, if_pos h] at hm
        rcases List.mem_cons.mp hm with rfl | hm2
        · exact hf x h
        · exfalso
          have h0 : rest.countP p = 0 := by omega
          exact (List.countP_eq_zero.mp h0) m hm2 hp
      · have hceq : (x :: rest).countP p = rest.countP p :=
          List.countP_cons_of_neg p rest h
        simp only [updateFirst, if_neg h] at hm
        rcases List.mem_cons.mp hm with rfl | hm2
        · exact absurd hp h
        · exact ih (by omega) m hm2 hp

theorem updateFirst_filter_not {α : Type} (p : α → Bool) (f : α → α)
    (hf : ∀ x, p x = true → p (f x) = true) (l : List α) :
    (updateFirst p f l).filter (fun x => !p x) = l.filter (fun x => !p x) := by
  induction l with
  | nil => rfl
  | cons x rest ih =>
      by_cases h : p x
      · simp [updateFirst, h, List.filter_cons, hf x h]
      · simp [updateFirst, h, List.filter_cons, ih]

theorem create_tool_bubble_upsert (conv : List ChatMessage) (name content : String)
    (cid : Option String) (status : String)
    (h : conv.countP (bubbleMatch (bubbleIdOf cid)) ≤ 1) :
    (create_tool_bubble conv (some name) content cid status).countP
        (bubbleMatch (bubbleIdOf cid)) = 1 ∧
    ∀ m ∈ create_tool_bubble conv (some name) content cid status,
        bubbleMatch (bubbleIdOf cid) m = true → bubbleStatusOf m = some status := by
  have hpf : ∀ (t st2 : String) (m : ChatMessage),
      bubbleMatch (bubbleIdOf cid) m = true →
      bubbleMatch (bubbleIdOf cid)
        { m with content := content, metadata := some ⟨t, bubbleIdOf cid, st2⟩ } = true := by
    intro t st2 m _
    simp [bubbleMatch]
  by_cases hany : conv.any (bubbleMatch (bubbleIdOf cid)) = true
  · have hpos : 0 < conv.countP (bubbleMatch (bubbleIdOf cid)) := by
      rw [List.countP_pos_iff]
      obtain ⟨x, hx, hpx⟩ := List.any_eq_true.mp hany
      exact ⟨x, hx, hpx⟩
    have hcount1 : conv.countP (bubbleMatch (bubbleIdOf cid)) = 1 := by omega
    constructor
    · simp only [create_tool_bubble, hany, if_true]
      rw [List.countP_reverse, countP_updateFirst _ _ (fun x hx => hpf _ _ x hx),
          List.countP_reverse]
      exact hcount1
    · intro m hm hpm
      simp only [create_tool_bubble, hany, if_true, List.mem_reverse] at hm
      refine updateFirst_unique_prop _ _ (fun x => bubbleStatusOf x = some status)
        ?_ conv.reverse (by rw [List.countP_reverse]; omega) m hm hpm
      intro x _
      rfl
  · have h0 : conv.countP (bubbleMatch (bubbleIdOf cid)) = 0 := by
      rw [List.countP_eq_zero]
      intro a ha hpa
      exact hany (List.any_eq_true.mpr ⟨a, ha, hpa⟩)
    have hanyf : conv.any (bubbleMatch (bubbleIdOf cid)) = false := by
      simpa using hany
    constructor
    · simp only [create_tool_bubble, hanyf, Bool.false_eq_true, if_false]
      rw [List.countP_append, h0]
      simp [bubbleMatch]
    · intro m hm hpm
      simp only [create_tool_bubble, hanyf, Bool.false_eq_true, if_false,
        List.mem_append] at hm
      rcases hm with hm | hm
      · exact absurd hpm ((List.countP_eq_zero.mp h0) m hm)
      · rcases List.mem_singleton.mp hm with rfl
        rfl

theorem create_tool_bubble_in_place (conv : List ChatMessage) (name content : String)
    (cid : Option String) (status : String)
    (hany : conv.any (bubbleMatch (bubbleIdOf cid)) = true) :
    (create_tool_bubble conv (some name) content cid status).length = conv.length ∧
    (create_tool_bubble conv (some name) content cid status).filter
        (fun m => !bubbleMatch (bubbleIdOf cid) m) =
      conv.filter (fun m => !bubbleMatch (bubbleIdOf cid) m) := by
  have hpf : ∀ x, bubbleMatch (bubbleIdOf cid) x = true →
      bubbleMatch (bubbleIdOf cid)
        { x with content := content,
                 metadata := some ⟨(match lookupA (bubbleIdOf cid) tool_titles with
                                    | some t => t
                                    | none => ""), bubbleIdOf cid, status⟩ } = true := by
    intro x _
    simp [bubbleMatch]
  constructor
  · simp only [create_tool_bubble, hany, if_true, List.length_reverse]
    rw [updateFirst_length, List.length_reverse]
  · simp only [create_tool_bubble, hany, if_true]
    rw [List.filter_reverse, updateFirst_filter_not _ _ (fun x hx => by simp [bubbleMatch]),
        List.filter_reverse, List.reverse_reverse]

/-- Claim C3: for every known item identifier and every integer delta,
`update_inventory_count` sets the item stock to `max 0 (old + delta)`
and reports `previous_stock = old` and `new_stock = max 0 (old + delta)`;
every other inventory entry is untouched, so the operation never drives
any stored stock below zero. -/
theorem update_inventory_count_clamps (s : Store) (item_id : String) (delta : Int)
    (reason : String) (item : Item) (h : lookupA item_id s.inventory = some item) :
    lookupA item_id (update_inventory_count s item_id delta reason).1.inventory =
      some { item with stock := max 0 (item.stock + delta) } ∧
    (update_inventory_count s item_id delta reason).2.getKey "previous_stock" =
      some (.int item.stock) ∧
    (update_inventory_count s item_id delta reason).2.getKey "new_stock" =
      some (.int (max 0 (item.stock + delta))) ∧
    (∀ k, k ≠ item_id →
      lookupA k (update_inventory_count s item_id delta reason).1.inventory =
        lookupA k s.inventory) ∧
    (∀ k it, lookupA k (update_inventory_count s item_id delta reason).1.inventory = some it →
      0 ≤ it.stock ∨ lookupA k s.inventory = some it) := by
  have hmax : (if item.stock + delta < 0 then (0 : Int) else item.stock + delta) =
      max 0 (item.stock + delta) := by
    split <;> omega
  refine ⟨?_, ?_, ?_, ?_, ?_⟩
  · simp only [update_inventory_count, h]
    rw [hmax, lookupA_insertA_self]
  · simp only [update_inventory_count, h]
    rfl
  · simp only [update_inventory_count, h]
    rw [hmax]
    rfl
  · intro k hk
    simp only [update_inventory_count, h]
    exact lookupA_insertA_ne _ _ hk
  · intro k it hit
    by_cases hk : k = item_id
    · subst hk
      simp only [update_inventory_count, h, hmax] at hit
      rw [lookupA_insertA_self] at hit
      left
      cases hit
      simp [le_max_left]
    · right
      simp only [update_inventory_count, h] at hit
      rwa [lookupA_insertA_ne _ _ hk] at hit

/-- Claim C10: the five read-only tool functions return the store
unchanged on every input, while `check_delivery_status` does mutate the
request table on at least one input. -/
theorem read_only_tools_leave_store_unchanged (s : Store) (item_id shelf_id : String)
    (category : Option String) (min_stock_level : Int) :
    (check_item_stock s item_id).1 = s ∧
    (find_item_location s item_id).1 = s ∧
    (get_shelf_layout s shelf_id).1 = s ∧
    (get_items_needing_restock s category min_stock_level).1 = s ∧
    (get_store_layout_overview s).1 = s ∧
    ∃ (s2 : Store) (rid : String) (b1 b2 : Bool), (check_delivery_status s2 rid b1 b2).1 ≠ s2 := by
  refine ⟨?_, ?_, ?_, rfl, rfl, ?_⟩
  · cases h : lookupA item_id s.inventory <;> simp [check_item_stock, h]
  · rcases h : lookupA item_id s.inventory with - | item
    · simp [find_item_location, h]
    · rcases hl : item.location_id with - | loc
      · simp [find_item_location, h, hl]
      · by_cases he : loc.isEmpty <;> simp [find_item_location, h, hl, he]
  · rcases h : lookupA shelf_id s.shelf_layouts with - | layout
    · simp [get_shelf_layout, h]
    · by_cases he : layout.isEmpty <;> simp [get_shelf_layout, h, he]
  · refine ⟨⟨[], [], [("R1", ⟨"SKU001", 1, "A1", .Pending⟩)]⟩, "R1", true, true, ?_⟩
    decide

/-- Claim C7: when iterating the stream raises after a prefix of events,
the turn ends with the transcript built from those events plus exactly
one appended assistant error entry; everything before it is preserved
verbatim. -/
theorem stream_error_appends_single_entry (st : ReducerState) (sr : StreamRun) (e : String)
    (h : sr.streamError = some e) :
    (runTurn st sr).conversation =
      (processEvents st sr.events).conversation ++
        [⟨"assistant", "An error occurred while processing your request: " ++ e, none⟩] ∧
    (runTurn st sr).conversation.length =
      (processEvents st sr.events).conversation.length + 1 ∧
    (runTurn st sr).conversation.take (processEvents st sr.events).conversation.length =
      (processEvents st sr.events).conversation := by
  refine ⟨?_, ?_, ?_⟩ <;> simp [runTurn, h, List.take_left]

/-- Claim C6: the three message-delta fragments "Hel", "lo wor", "ld"
under one message id fold to a single open assistant entry reading
exactly "Hello world"; in general a delta whose transcript ends in a
plain assistant entry appends its text to that entry's content. -/
theorem message_delta_accumulates :
    (processEvents ⟨[⟨"user", "hi", none⟩], []⟩
      [Event.messageDelta ["Hel"], Event.messageDelta ["lo wor"], Event.messageDelta ["ld"]]).conversation =
      [⟨"user", "hi", none⟩, ⟨"assistant", "Hello world", none⟩] ∧
    ∀ (pre : List ChatMessage) (m : ChatMessage) (acts : List (String × ToolCallInfo))
      (chunks : List String),
      m.role = "assistant" → m.metadata = none → String.join chunks ≠ "" →
      (processEvent ⟨pre ++ [m], acts⟩ (Event.messageDelta chunks)).conversation =
        pre ++ [⟨m.role, m.content ++ String.join chunks, m.metadata⟩] := by
  constructor
  · decide
  · intro pre m acts chunks hrole hmeta hne
    simp only [processEvent, applyMessageDelta, List.getLast?_concat, hrole, hmeta]
    rw [if_neg (by simpa [String.isEmpty_iff] using hne)]
    simp [List.dropLast_concat, hrole, hmeta]

/-- Witness: `update_inventory_count_clamps` at SKU003 with delta 5 on
the fixture store. -/
theorem update_inventory_count_clamps_witness :
    lookupA "SKU003" initStore.inventory =
      some ⟨"Adventure Granola", 8, "Breakfast", some "A2", some 0⟩ ∧
    lookupA "SKU003" (update_inventory_count initStore "SKU003" 5 "Restock").1.inventory =
      some ⟨"Adventure Granola", max 0 (8 + 5), "Breakfast", some "A2", some 0⟩ :=
  ⟨by decide,
   (update_inventory_count_clamps initStore "SKU003" 5 "Restock"
     ⟨"Adventure Granola", 8, "Breakfast", some "A2", some 0⟩ (by decide)).1⟩

/-- Witness: `stream_error_appends_single_entry` on an empty turn that
raises "boom". -/
theorem stream_error_appends_single_entry_witness :
    (runTurn ⟨[], []⟩ ⟨[], some "boom"⟩).conversation =
      (processEvents (⟨[], []⟩ : ReducerState) []).conversation ++
        [⟨"assistant", "An error occurred while processing your request: " ++ "boom", none⟩] :=
  (stream_error_appends_single_entry ⟨[], []⟩ ⟨[], some "boom"⟩ "boom" rfl).1

/-- Witness: the general append clause of `message_delta_accumulates`
at a one-entry transcript. -/
theorem message_delta_accumulates_witness :
    (processEvent ⟨[] ++ [(⟨"assistant", "Hello ", none⟩ : ChatMessage)], []⟩
        (Event.messageDelta ["world"])).conversation =
      [] ++ [(⟨"assistant", "Hello " ++ String.join ["world"], none⟩ : ChatMessage)] :=
  message_delta_accumulates.2 [] ⟨"assistant", "Hello ", none⟩ [] ["world"] rfl rfl (by decide)

/-- Claim C9: one `check_delivery_status` call on an existing request,
for every outcome of the random draws, either keeps the status or
advances it exactly one step along Pending → In Transit → Delivered:
never backward, never Pending → Delivered in one check, and Delivered
is terminal; other requests are untouched. -/
theorem check_delivery_status_one_step (s : Store) (request_id : String) (b1 b2 : Bool)
    (req : StorageRequest) (h : lookupA request_id s.storage_requests = some req) :
    ∃ req2 : StorageRequest,
      lookupA request_id (check_delivery_status s request_id b1 b2).1.storage_requests =
        some req2 ∧
      req.status.rank ≤ req2.status.rank ∧
      req2.status.rank ≤ req.status.rank + 1 ∧
      ¬(req.status = .Pending ∧ req2.status = .Delivered) ∧
      (req.status = .Delivered → req2.status = .Delivered) ∧
      (∀ k, k ≠ request_id →
        lookupA k (check_delivery_status s request_id b1 b2).1.storage_requests =
          lookupA k s.storage_requests) := by
  have hlook : lookupA request_id (check_delivery_status s request_id b1 b2).1.storage_requests =
      some (if req.status = .Pending ∧ b1 then { req with status := .InTransit }
            else if req.status = .InTransit ∧ b2 then { req with status := .Delivered }
            else req) := by
    simp only [check_delivery_status, h]
    exact lookupA_insertA_self _ _ _
  have hframe : ∀ k, k ≠ request_id →
      lookupA k (check_delivery_status s request_id b1 b2).1.storage_requests =
        lookupA k s.storage_requests := by
    intro k hk
    simp only [check_delivery_status, h]
    exact lookupA_insertA_ne _ _ hk
  refine ⟨_, hlook, ?_, ?_, ?_, ?_, hframe⟩ <;>
    rcases req with ⟨i, q, t, st0⟩ <;> cases st0 <;> cases b1 <;> cases b2 <;>
      simp [ReqStatus.rank]

/-- Witness: `check_delivery_status_one_step` on a store holding one
Pending request, with the first draw succeeding. -/
theorem check_delivery_status_one_step_witness :
    lookupA "REQ1" (Store.mk [] [] [("REQ1", ⟨"SKU001", 2, "A1", .Pending⟩)]).storage_requests =
      some ⟨"SKU001", 2, "A1", ReqStatus.Pending⟩ ∧
    ∃ req2 : StorageRequest,
      lookupA "REQ1" (check_delivery_status
          (Store.mk [] [] [("REQ1", ⟨"SKU001", 2, "A1", .Pending⟩)]) "REQ1" true false).1.storage_requests =
        some req2 ∧
      (⟨"SKU001", 2, "A1", ReqStatus.Pending⟩ : StorageRequest).status.rank ≤ req2.status.rank ∧
      req2.status.rank ≤ (⟨"SKU001", 2, "A1", ReqStatus.Pending⟩ : StorageRequest).status.rank + 1 ∧
      ¬((⟨"SKU001", 2, "A1", ReqStatus.Pending⟩ : StorageRequest).status = .Pending ∧
          req2.status = .Delivered) ∧
      ((⟨"SKU001", 2, "A1", ReqStatus.Pending⟩ : StorageRequest).status = .Delivered →
          req2.status = .Delivered) ∧
      (∀ k, k ≠ "REQ1" →
        lookupA k (check_delivery_status
            (Store.mk [] [] [("REQ1", ⟨"SKU001", 2, "A1", .Pending⟩)]) "REQ1" true false).1.storage_requests =
          lookupA k (Store.mk [] [] [("REQ1", ⟨"SKU001", 2, "A1", .Pending⟩)]).storage_requests) :=
  ⟨by decide,
   check_delivery_status_one_step (Store.mk [] [] [("REQ1", ⟨"SKU001", 2, "A1", .Pending⟩)])
     "REQ1" true false ⟨"SKU001", 2, "A1", .Pending⟩ (by decide)⟩

/-- Claim C1: processing the same completed tool-call event twice for
one call identifier yields exactly one bubble with that identifier's
stable key, in the done state, not two; more generally an upsert whose
bubble key already occurs anywhere in the transcript updates that entry
in place — same transcript length, all other entries untouched — and
never appends a duplicate. -/
theorem tool_call_completed_idempotent (st : ReducerState) (tcall : DoneCall)
    (raw : String) (parsed : Option JVal) (hty : tcall.type = "function")
    (hout : tcall.output = some (raw, parsed))
    (hcount : st.conversation.countP (bubbleMatch (bubbleIdOf tcall.id)) ≤ 1) :
    ((processEvents st [Event.runStep "tool_calls" "completed" none [tcall],
        Event.runStep "tool_calls" "completed" none [tcall]]).conversation.countP
          (bubbleMatch (bubbleIdOf tcall.id)) = 1 ∧
      ∀ m ∈ (processEvents st [Event.runStep "tool_calls" "completed" none [tcall],
          Event.runStep "tool_calls" "completed" none [tcall]]).conversation,
        bubbleMatch (bubbleIdOf tcall.id) m = true → bubbleStatusOf m = some "done") ∧
    (∀ (conv : List ChatMessage) (nm ct stt : String) (cid : Option String),
      conv.any (bubbleMatch (bubbleIdOf cid)) = true →
      (create_tool_bubble conv (some nm) ct cid stt).length = conv.length ∧
      (create_tool_bubble conv (some nm) ct cid stt).filter
          (fun m => !bubbleMatch (bubbleIdOf cid) m) =
        conv.filter (fun m => !bubbleMatch (bubbleIdOf cid) m)) := by
  have key : ∀ st2 : ReducerState,
      st2.conversation.countP (bubbleMatch (bubbleIdOf tcall.id)) ≤ 1 →
      (processEvent st2 (Event.runStep "tool_calls" "completed" none [tcall])).conversation.countP
          (bubbleMatch (bubbleIdOf tcall.id)) = 1 ∧
      ∀ m ∈ (processEvent st2 (Event.runStep "tool_calls" "completed" none [tcall])).conversation,
          bubbleMatch (bubbleIdOf tcall.id) m = true → bubbleStatusOf m = some "done" := by
    intro st2 hc2
    simp only [processEvent, List.foldl_cons, List.foldl_nil, processDoneCall, hty, hout,
      List.isEmpty_cons, Bool.not_false, Bool.and_true, beq_self_eq_true, if_true]
    exact create_tool_bubble_upsert st2.conversation _ _ tcall.id "done" hc2
  refine ⟨?_, fun conv nm ct stt cid2 hany => create_tool_bubble_in_place conv nm ct cid2 stt hany⟩
  simp only [processEvents, List.foldl_cons, List.foldl_nil]
  obtain ⟨h1c, -⟩ := key st hcount
  exact key _ (le_of_eq h1c)

/-- Witness: `tool_call_completed_idempotent` on an empty transcript
with call id "c1". -/
theorem tool_call_completed_idempotent_witness :
    (([] : List ChatMessage).countP (bubbleMatch (bubbleIdOf (some "c1"))) ≤ 1) ∧
    (processEvents ⟨[], []⟩
        [Event.runStep "tool_calls" "completed" none [⟨some "c1", "function", some ("{}", none)⟩],
         Event.runStep "tool_calls" "completed" none
           [⟨some "c1", "function", some ("{}", none)⟩]]).conversation.countP
      (bubbleMatch (bubbleIdOf (some "c1"))) = 1 :=
  ⟨by decide,
   (tool_call_completed_idempotent ⟨[], []⟩ ⟨some "c1", "function", some ("{}", none)⟩
     "{}" none rfl rfl (by decide)).1.1⟩

theorem errObj_hasKey (m : String) : (errObj m).hasKey "error" = true := rfl

/-- Claim C2: with valid arguments `mark_item_restocked` is the slot
write followed by `update_inventory_count(+quantity)`, composing both
outcomes into the result; with any invalid argument (unknown item or
shelf, out-of-bounds index, non-positive quantity) it returns an error
object and leaves the store completely unchanged. -/
theorem mark_item_restocked_all_or_nothing (s : Store) (item_id shelf_id : String)
    (si pi2 q : Int) :
    (∀ item layout,
      lookupA item_id s.inventory = some item →
      lookupA shelf_id s.shelf_layouts = some layout →
      0 ≤ si → si < (layout.length : Int) →
      0 ≤ pi2 → pi2 < ((layout.getD si.toNat []).length : Int) →
      0 < q →
      mark_item_restocked s item_id shelf_id si pi2 q =
        ((update_inventory_count (writeSlot s shelf_id si.toNat pi2.toNat item_id) item_id q
            ("Restocked on " ++ shelf_id ++ "-S" ++ toString (si + 1) ++
             "-P" ++ toString (pi2 + 1))).1,
         .obj [("message", .str ("Successfully restocked " ++ toString q ++ " of " ++
                 item.name ++ " (" ++ item_id ++ ") at " ++ shelf_id ++ "-S" ++
                 toString (si + 1) ++ "-P" ++ toString (pi2 + 1) ++ ".")),
               ("inventory_update",
                 (update_inventory_count (writeSlot s shelf_id si.toNat pi2.toNat item_id)
                   item_id q ("Restocked on " ++ shelf_id ++ "-S" ++ toString (si + 1) ++
                              "-P" ++ toString (pi2 + 1))).2)])) ∧
    ((lookupA item_id s.inventory = none ∨ lookupA shelf_id s.shelf_layouts = none ∨
      ¬(0 ≤ si ∧ si < (((lookupA shelf_id s.shelf_layouts).getD []).length : Int)) ∨
      ¬(0 ≤ pi2 ∧
          pi2 < ((((lookupA shelf_id s.shelf_layouts).getD []).getD si.toNat []).length : Int)) ∨
      q ≤ 0) →
      (mark_item_restocked s item_id shelf_id si pi2 q).1 = s ∧
      (mark_item_restocked s item_id shelf_id si pi2 q).2.hasKey "error" = true) := by
  constructor
  · intro item layout hitem hlayout hsi1 hsi2 hpi1 hpi2 hq
    have hmemI : memA item_id s.inventory = true := by simp [memA, hitem]
    have hmemS : memA shelf_id s.shelf_layouts = true := by simp [memA, hlayout]
    have hupd : lookupA item_id
        (writeSlot s shelf_id si.toNat pi2.toNat item_id).inventory = some item := by
      simp only [writeSlot, hlayout]
      exact hitem
    simp only [mark_item_restocked, hmemI, hmemS, Bool.not_true, Bool.false_eq_true,
      if_false, hlayout, Option.getD_some]
    rw [if_neg (not_not_intro ⟨hsi1, hsi2⟩), if_neg (not_not_intro ⟨hpi1, hpi2⟩),
      if_neg (not_le.mpr hq)]
    simp only [writeSlot, hlayout] at hupd ⊢
    simp only [update_inventory_count, hupd, JVal.hasKey, JVal.getKey, Bool.false_eq_true,
      if_false]
    rw [lookupA_insertA_self]
    rfl
  · intro hbad
    simp only [mark_item_restocked]
    split
    · exact ⟨rfl, rfl⟩
    · split
      · exact ⟨rfl, rfl⟩
      · split
        · exact ⟨rfl, rfl⟩
        · split
          · exact ⟨rfl, rfl⟩
          · split
            · exact ⟨rfl, rfl⟩
            · exfalso
              rename_i g1 g2 g3 g4 g5
              rcases hbad with hb | hb | hb | hb | hb
              · exact g1 (by simp [memA, hb])
              · exact g2 (by simp [memA, hb])
              · exact g3 hb
              · exact g4 hb
              · exact g5 hb

/-- Witness: `mark_item_restocked_all_or_nothing` — invalid side at an
out-of-range shelf index 9, valid side at SKU003 on shelf A2 slot
(1, 1). -/
theorem mark_item_restocked_all_or_nothing_witness :
    ((mark_item_restocked initStore "SKU003" "A2" 9 1 5).1 = initStore ∧
     (mark_item_restocked initStore "SKU003" "A2" 9 1 5).2.hasKey "error" = true) ∧
    (mark_item_restocked initStore "SKU003" "A2" 1 1 5).2.hasKey "message" = true :=
  ⟨(mark_item_restocked_all_or_nothing initStore "SKU003" "A2" 9 1 5).2
     (Or.inr (Or.inr (Or.inl (by decide)))),
   by
     rw [(mark_item_restocked_all_or_nothing initStore "SKU003" "A2" 1 1 5).1
       ⟨"Adventure Granola", 8, "Breakfast", some "A2", some 0⟩
       [[some "SKU003", some "SKU003", some "SKU004"],
        [some "SKU003", some "SKU004", some "SKU004"],
        [some "SKU004", none, none],
        [none, none, none]]
       (by decide) (by decide) (by decide) (by decide) (by decide) (by decide) (by decide)]
     rfl⟩

/-- Claim C4: for an item identifier absent from the inventory, each of
the seven item-taking tool functions returns a structured error object
and leaves the whole store (inventory, shelf layouts, storage requests)
unchanged; as total functions they never raise. -/
theorem unknown_item_rejected_everywhere (s : Store) (item_id : String)
    (h : lookupA item_id s.inventory = none) :
    ((check_item_stock s item_id).1 = s ∧
      (check_item_stock s item_id).2.hasKey "error" = true) ∧
    ((find_item_location s item_id).1 = s ∧
      (find_item_location s item_id).2.hasKey "error" = true) ∧
    (∀ (q : Int) (loc : String) (rnd : Nat),
      (request_item_from_storage s item_id q loc rnd).1 = s ∧
      (request_item_from_storage s item_id q loc rnd).2.hasKey "error" = true) ∧
    (∀ (d : Int) (r : String),
      (update_inventory_count s item_id d r).1 = s ∧
      (update_inventory_count s item_id d r).2.hasKey "error" = true) ∧
    (∀ (sh : String) (si pi2 q : Int),
      (mark_item_restocked s item_id sh si pi2 q).1 = s ∧
      (mark_item_restocked s item_id sh si pi2 q).2.hasKey "error" = true) ∧
    (∀ (q : Int) (notes : Option String),
      (log_damaged_item s item_id q notes).1 = s ∧
      (log_damaged_item s item_id q notes).2.hasKey "error" = true) ∧
    (∀ q : Int,
      (identify_and_restock_item_from_image s item_id q).1 = s ∧
      (identify_and_restock_item_from_image s item_id q).2.hasKey "error" = true) := by
  refine ⟨?_, ?_, ?_, ?_, ?_, ?_, ?_⟩
  · constructor <;> simp [check_item_stock, h, errObj_hasKey]
  · constructor <;> simp [find_item_location, h, errObj_hasKey]
  · intro q loc rnd
    constructor <;> simp [request_item_from_storage, memA, h, errObj_hasKey]
  · intro d r
    constructor <;> simp [update_inventory_count, h, errObj_hasKey]
  · intro sh si pi2 q
    constructor <;> simp [mark_item_restocked, memA, h, errObj_hasKey]
  · intro q notes
    by_cases hq : q ≤ 0
    · constructor <;> simp [log_damaged_item, hq, errObj_hasKey]
    · constructor <;>
        simp [log_damaged_item, hq, update_inventory_count, h, errObj_hasKey]
  · intro q
    by_cases he : item_id.isEmpty = true
    · constructor <;> simp [identify_and_restock_item_from_image, he, errObj_hasKey]
    · constructor <;>
        simp [identify_and_restock_item_from_image, he, find_item_location, h, errObj_hasKey]

/-- Witness: `unknown_item_rejected_everywhere` at the absent id
SKU999 on the fixture store. -/
theorem unknown_item_rejected_everywhere_witness :
    lookupA "SKU999" initStore.inventory = none ∧
    ((check_item_stock initStore "SKU999").1 = initStore ∧
      (check_item_stock initStore "SKU999").2.hasKey "error" = true) ∧
    ((identify_and_restock_item_from_image initStore "SKU999" 5).1 = initStore ∧
      (identify_and_restock_item_from_image initStore "SKU999" 5).2.hasKey "error" = true) :=
  ⟨by decide,
   (unknown_item_rejected_everywhere initStore "SKU999" (by decide)).1,
   (unknown_item_rejected_everywhere initStore "SKU999" (by decide)).2.2.2.2.2.2 5⟩

theorem update_inventory_count_requests (s : Store) (iid : String) (d : Int) (r : String) :
    (update_inventory_count s iid d r).1.storage_requests = s.storage_requests := by
  cases h : lookupA iid s.inventory <;> simp [update_inventory_count, h]

theorem mark_item_restocked_requests (s : Store) (iid sh : String) (si pi2 qq : Int) :
    (mark_item_restocked s iid sh si pi2 qq).1.storage_requests = s.storage_requests := by
  simp only [mark_item_restocked]
  split
  · rfl
  split
  · rfl
  split
  · rfl
  split
  · rfl
  split
  · rfl
  split <;> exact update_inventory_count_requests _ _ _ _

theorem log_damaged_item_requests (s : Store) (iid : String) (qq : Int)
    (notes : Option String) :
    (log_damaged_item s iid qq notes).1.storage_requests = s.storage_requests := by
  simp only [log_damaged_item]
  split
  · rfl
  split <;> exact update_inventory_count_requests _ _ _ _

theorem identify_and_restock_requests (s : Store) (img : String) (qq : Int) :
    (identify_and_restock_item_from_image s img qq).1.storage_requests =
      s.storage_requests := by
  simp only [identify_and_restock_item_from_image]
  split
  · rfl
  split
  · rfl
  split
  · rfl
  split <;> exact mark_item_restocked_requests _ _ _ _ _ _

/-- Counterexample to claim C5 as stated: two successful calls can draw
the same random integer 1234; the second call then returns an
identifier that already occurs in the request table, and the earlier
request is overwritten rather than preserved unchanged. -/
theorem request_id_not_unique_counterexample :
    memA "REQ1234"
      (request_item_from_storage initStore "SKU001" 3 "A1" 1234).1.storage_requests = true ∧
    (request_item_from_storage
        (request_item_from_storage initStore "SKU001" 3 "A1" 1234).1
        "SKU002" 5 "A2" 1234).2.getKey "request_id" = some (.str "REQ1234") ∧
    lookupA "REQ1234"
        (request_item_from_storage
          (request_item_from_storage initStore "SKU001" 3 "A1" 1234).1
          "SKU002" 5 "A2" 1234).1.storage_requests =
      some ⟨"SKU002", 5, "A2", .Pending⟩ ∧
    lookupA "REQ1234"
        (request_item_from_storage initStore "SKU001" 3 "A1" 1234).1.storage_requests =
      some ⟨"SKU001", 3, "A1", .Pending⟩ ∧
    (request_item_from_storage
        (request_item_from_storage initStore "SKU001" 3 "A1" 1234).1
        "SKU002" 5 "A2" 1234).1.storage_requests.length = 1 :=
  ⟨by decide, rfl, by decide, by decide, by decide⟩

/-- Claim C5 (amended): a successful `request_item_from_storage` call
returns the identifier REQ followed by the drawn integer; when that
identifier is not already present the new Pending request is appended
and every earlier request is preserved unchanged, but a colliding draw
overwrites the existing request in place, so the identifier is not
guaranteed fresh; no tool operation ever removes a request key. -/
theorem request_from_storage_append_or_overwrite
    (s : Store) (item_id : String) (q : Int) (loc : String) (rnd : Nat)
    (hi : memA item_id s.inventory = true) (hl : memA loc s.shelf_layouts = true)
    (hq : 0 < q) :
    (request_item_from_storage s item_id q loc rnd).2.getKey "request_id" =
      some (.str ("REQ" ++ toString rnd)) ∧
    lookupA ("REQ" ++ toString rnd)
        (request_item_from_storage s item_id q loc rnd).1.storage_requests =
      some ⟨item_id, q, loc, .Pending⟩ ∧
    (∀ k, k ≠ "REQ" ++ toString rnd →
      lookupA k (request_item_from_storage s item_id q loc rnd).1.storage_requests =
        lookupA k s.storage_requests) ∧
    (memA ("REQ" ++ toString rnd) s.storage_requests = false →
      (request_item_from_storage s item_id q loc rnd).1.storage_requests =
        s.storage_requests ++ [("REQ" ++ toString rnd, ⟨item_id, q, loc, .Pending⟩)]) ∧
    (∀ k, memA k s.storage_requests = true →
      memA k (request_item_from_storage s item_id q loc rnd).1.storage_requests = true) ∧
    (∀ (rid : String) (b1 b2 : Bool) (k : String), memA k s.storage_requests = true →
      memA k (check_delivery_status s rid b1 b2).1.storage_requests = true) ∧
    (∀ (iid sh img : String) (si pi2 qq d ms : Int) (r : String) (notes : Option String)
        (cat : Option String),
      (check_item_stock s iid).1.storage_requests = s.storage_requests ∧
      (find_item_location s iid).1.storage_requests = s.storage_requests ∧
      (get_shelf_layout s sh).1.storage_requests = s.storage_requests ∧
      (get_items_needing_restock s cat ms).1.storage_requests = s.storage_requests ∧
      (get_store_layout_overview s).1.storage_requests = s.storage_requests ∧
      (update_inventory_count s iid d r).1.storage_requests = s.storage_requests ∧
      (mark_item_restocked s iid sh si pi2 qq).1.storage_requests = s.storage_requests ∧
      (log_damaged_item s iid qq notes).1.storage_requests = s.storage_requests ∧
      (identify_and_restock_item_from_image s img qq).1.storage_requests =
        s.storage_requests) := by
  have hred : request_item_from_storage s item_id q loc rnd =
      ({ s with storage_requests :=
           insertA ("REQ" ++ toString rnd) ⟨item_id, q, loc, .Pending⟩ s.storage_requests },
       .obj [("request_id", .str ("REQ" ++ toString rnd)), ("status", .str "Pending"),
             ("message", .str ("Request " ++ ("REQ" ++ toString rnd) ++ " created for " ++
               toString q ++ " of " ++
               (match lookupA item_id s.inventory with
                | some item => item.name
                | none => "") ++ " to shelf " ++ loc ++ "."))]) := by
    simp only [request_item_from_storage, hi, hl, Bool.not_true, Bool.false_eq_true, if_false]
    rw [if_neg (not_le.mpr hq)]
  refine ⟨?_, ?_, ?_, ?_, ?_, ?_, ?_⟩
  · rw [hred]
    rfl
  · rw [hred]
    exact lookupA_insertA_self _ _ _
  · intro k hk
    rw [hred]
    exact lookupA_insertA_ne _ _ hk
  · intro hnm
    rw [hred]
    exact insertA_of_not_mem _ hnm
  · intro k hk
    rw [hred]
    exact memA_insertA _ _ _ _ hk
  · intro rid b1 b2 k hk
    cases hr : lookupA rid s.storage_requests with
    | none => simpa [check_delivery_status, hr] using hk
    | some req =>
        simp only [check_delivery_status, hr]
        exact memA_insertA _ _ _ _ hk
  · intro iid sh img si pi2 qq d ms r notes cat
    refine ⟨?_, ?_, ?_, rfl, rfl, update_inventory_count_requests s iid d r,
      mark_item_restocked_requests s iid sh si pi2 qq,
      log_damaged_item_requests s iid qq notes,
      identify_and_restock_requests s img qq⟩
    · cases h : lookupA iid s.inventory <;> simp [check_item_stock, h]
    · rcases h : lookupA iid s.inventory with - | item
      · simp [find_item_location, h]
      · rcases hl2 : item.location_id with - | l
        · simp [find_item_location, h, hl2]
        · by_cases he : l.isEmpty <;> simp [find_item_location, h, hl2, he]
    · rcases h : lookupA sh s.shelf_layouts with - | layout
      · simp [get_shelf_layout, h]
      · by_cases he : layout.isEmpty <;> simp [get_shelf_layout, h, he]

/-- Witness: `request_from_storage_append_or_overwrite` on the fixture
store with draw 1234. -/
theorem request_from_storage_append_or_overwrite_witness :
    memA "SKU001" initStore.inventory = true ∧
    (request_item_from_storage initStore "SKU001" 3 "A1" 1234).2.getKey "request_id" =
      some (.str ("REQ" ++ toString 1234)) ∧
    lookupA ("REQ" ++ toString 1234)
        (request_item_from_storage initStore "SKU001" 3 "A1" 1234).1.storage_requests =
      some ⟨"SKU001", 3, "A1", .Pending⟩ :=
  ⟨by decide,
   (request_from_storage_append_or_overwrite initStore "SKU001" 3 "A1" 1234
      (by decide) (by decide) (by decide)).1,
   (request_from_storage_append_or_overwrite initStore "SKU001" 3 "A1" 1234
      (by decide) (by decide) (by decide)).2.1⟩

theorem scanRows_eq_firstSlot (item_id : String) :
    ∀ (rows : List (List (Option String))) (r : Nat) (acc : Option (Nat × Nat)),
      scanRows item_id rows r acc =
        match firstSlot (fun c => c == some item_id) rows with
        | some rc => some (r + rc.1, rc.2)
        | none =>
          match acc with
          | some a => some a
          | none =>
              (firstSlot (fun c => c == (none : Option String)) rows).map
                (fun rc => (r + rc.1, rc.2)) := by
  intro rows
  induction rows with
  | nil =>
      intro r acc
      cases acc <;> rfl
  | cons row rest ih =>
      intro r acc
      cases hx : row.findIdx? (fun c => c == some item_id) with
      | some p =>
          simp [scanRows, firstSlot, hx]
      | none =>
          cases acc with
          | some a =>
              simp only [scanRows, hx, firstSlot]
              rw [ih]
              cases hz : firstSlot (fun c => c == some item_id) rest with
              | some rc =>
                  obtain ⟨i, c⟩ := rc
                  simp only [Option.map_some]
                  have harith : r + 1 + i = r + (i + 1) := by omega
                  simp [harith]
              | none => simp
          | none =>
              cases hy : row.findIdx? (fun c => c == (none : Option String)) with
              | some p =>
                  simp only [scanRows, hx, hy, firstSlot]
                  rw [ih]
                  cases hz : firstSlot (fun c => c == some item_id) rest with
                  | some rc =>
                      obtain ⟨i, c⟩ := rc
                      simp only [Option.map_some]
                      have harith : r + 1 + i = r + (i + 1) := by omega
                      simp [harith]
                  | none => simp
              | none =>
                  simp only [scanRows, hx, hy, firstSlot]
                  rw [ih]
                  cases hz : firstSlot (fun c => c == some item_id) rest with
                  | some rc =>
                      obtain ⟨i, c⟩ := rc
                      simp only [Option.map_some]
                      have harith : r + 1 + i = r + (i + 1) := by omega
                      simp [harith]
                  | none =>
                      cases hw : firstSlot (fun c => c == (none : Option String)) rest with
                      | some rc =>
                          obtain ⟨i, c⟩ := rc
                          simp only [Option.map_some]
                          have harith : r + 1 + i = r + (i + 1) := by omega
                          simp [harith]
                      | none => simp

theorem scanRows_resolvedSlot (item_id : String) (layout : List (List (Option String))) :
    scanRows item_id layout 0 none = resolvedSlot item_id layout := by
  rw [scanRows_eq_firstSlot]
  unfold resolvedSlot
  cases hx : firstSlot (fun c => c == some item_id) layout with
  | some rc =>
      obtain ⟨i, c⟩ := rc
      simp
  | none =>
      cases hy : firstSlot (fun c => c == (none : Option String)) layout with
      | some rc =>
          obtain ⟨i, c⟩ := rc
          simp
      | none => simp

/-- Claim C8: for a non-empty image naming a known, located item,
`identify_and_restock_item_from_image` resolves the slot as the first
exact-match slot in row order, or failing that the first empty slot;
with no such slot it errors without touching the store, and otherwise it
delegates to `mark_item_restocked` at exactly the resolved coordinates
with the given quantity. -/
theorem identify_restock_resolves_and_delegates
    (s : Store) (item_id : String) (q : Int) (item : Item) (loc : String)
    (layout : List (List (Option String)))
    (hne : item_id ≠ "")
    (hi : lookupA item_id s.inventory = some item)
    (hloc : item.location_id = some loc) (hlocne : loc ≠ "")
    (hlay : lookupA loc s.shelf_layouts = some layout) :
    (resolvedSlot item_id layout = none →
      identify_and_restock_item_from_image s item_id q =
        (s, errObj ("Could not determine specific shelf/position for item " ++ item_id ++
                    " on shelf " ++ loc ++ ". Layout might need update."))) ∧
    (∀ r c, resolvedSlot item_id layout = some (r, c) →
      (identify_and_restock_item_from_image s item_id q).1 =
        (mark_item_restocked s item_id loc (r : Int) (c : Int) q).1 ∧
      ((identify_and_restock_item_from_image s item_id q).2.hasKey "error" =
        (mark_item_restocked s item_id loc (r : Int) (c : Int) q).2.hasKey "error") ∧
      ((mark_item_restocked s item_id loc (r : Int) (c : Int) q).2.hasKey "error" = false →
        (identify_and_restock_item_from_image s item_id q).2.getKey "restock_details" =
          some (mark_item_restocked s item_id loc (r : Int) (c : Int) q).2)) := by
  have hemp : item_id.isEmpty = false := by
    cases he : item_id.isEmpty
    · rfl
    · exact absurd ((String.isEmpty_iff item_id).mp he) hne
  have hlocemp : ¬(loc.isEmpty = true) :=
    fun hcontra => hlocne ((String.isEmpty_iff loc).mp hcontra)
  have hfind2 : (find_item_location s item_id).2 =
      .obj [("item_id", .str item_id), ("name", .str item.name), ("location_id", .str loc),
            ("position", match item.position with
                         | some p => .int p
                         | none => .str "N/A")] := by
    simp only [find_item_location, hi, hloc]
    rw [if_neg hlocemp]
  have hkerr : (find_item_location s item_id).2.hasKey "error" = false := by
    rw [hfind2]
    rfl
  have hgloc : (find_item_location s item_id).2.getStr "location_id" = loc := by
    rw [hfind2]
    rfl
  have hmain : identify_and_restock_item_from_image s item_id q =
      (match resolvedSlot item_id layout with
       | none =>
           (s, errObj ("Could not determine specific shelf/position for item " ++ item_id ++
                       " on shelf " ++ loc ++ ". Layout might need update."))
       | some (r, c) =>
           if (mark_item_restocked s item_id loc (r : Int) (c : Int) q).2.hasKey "error" then
             ((mark_item_restocked s item_id loc (r : Int) (c : Int) q).1,
              errObj ("Failed to restock after identification: " ++
                (mark_item_restocked s item_id loc (r : Int) (c : Int) q).2.getStr "error"))
           else
             ((mark_item_restocked s item_id loc (r : Int) (c : Int) q).1,
              .obj [("message", .str ("Simulated vision identification and restocking complete for " ++
                      item_id ++ ".")),
                    ("restock_details",
                      (mark_item_restocked s item_id loc (r : Int) (c : Int) q).2)])) := by
    simp only [identify_and_restock_item_from_image, hemp, Bool.false_eq_true, if_false,
      hkerr, hgloc, hlay, scanRows_resolvedSlot]
  constructor
  · intro h0
    rw [hmain, h0]
  · intro r c hrc
    have hsome : identify_and_restock_item_from_image s item_id q =
        (if (mark_item_restocked s item_id loc (r : Int) (c : Int) q).2.hasKey "error" then
           ((mark_item_restocked s item_id loc (r : Int) (c : Int) q).1,
            errObj ("Failed to restock after identification: " ++
              (mark_item_restocked s item_id loc (r : Int) (c : Int) q).2.getStr "error"))
         else
           ((mark_item_restocked s item_id loc (r : Int) (c : Int) q).1,
            .obj [("message", .str ("Simulated vision identification and restocking complete for " ++
                    item_id ++ ".")),
                  ("restock_details",
                    (mark_item_restocked s item_id loc (r : Int) (c : Int) q).2)])) := by
      rw [hmain, hrc]
    rw [hsome]
    by_cases he : (mark_item_restocked s item_id loc (r : Int) (c : Int) q).2.hasKey "error" = true
    · rw [if_pos he]
      refine ⟨rfl, ?_, ?_⟩
      · rw [he]
        rfl
      · intro hf
        rw [hf] at he
        exact absurd he Bool.false_ne_true
    · rw [if_neg he]
      have he2 : (mark_item_restocked s item_id loc (r : Int) (c : Int) q).2.hasKey "error" = false := by
        simpa using he
      refine ⟨rfl, ?_, ?_⟩
      · rw [he2]
        rfl
      · intro hf
        rfl

/-- Witness: `identify_restock_resolves_and_delegates` for SKU003 on
the fixture store; the resolved slot on shelf A2 is (0, 0). -/
theorem identify_restock_resolves_and_delegates_witness :
    resolvedSlot "SKU003"
      [[some "SKU003", some "SKU003", some "SKU004"],
       [some "SKU003", some "SKU004", some "SKU004"],
       [some "SKU004", none, none],
       [none, none, none]] = some (0, 0) ∧
    ((identify_and_restock_item_from_image initStore "SKU003" 5).1 =
      (mark_item_restocked initStore "SKU003" "A2" ((0 : Nat) : Int) ((0 : Nat) : Int) 5).1 ∧
    ((identify_and_restock_item_from_image initStore "SKU003" 5).2.hasKey "error" =
      (mark_item_restocked initStore "SKU003" "A2" ((0 : Nat) : Int) ((0 : Nat) : Int) 5).2.hasKey "error") ∧
    ((mark_item_restocked initStore "SKU003" "A2" ((0 : Nat) : Int) ((0 : Nat) : Int) 5).2.hasKey "error" = false →
      (identify_and_restock_item_from_image initStore "SKU003" 5).2.getKey "restock_details" =
        some (mark_item_restocked initStore "SKU003" "A2" ((0 : Nat) : Int) ((0 : Nat) : Int) 5).2)) :=
  ⟨by decide,
   (identify_restock_resolves_and_delegates initStore "SKU003" 5
      ⟨"Adventure Granola", 8, "Breakfast", some "A2", some 0⟩ "A2"
      [[some "SKU003", some "SKU003", some "SKU004"],
       [some "SKU003", some "SKU004", some "SKU004"],
       [some "SKU004", none, none],
       [none, none, none]]
      (by decide) (by decide) rfl (by decide) (by decide)).2 0 0 (by decide)⟩
